import Mathlib

/-!
Verification development for the auto-speedometer repository.

The repository holds three near-duplicate React Native speedometer apps:
`src/App.js` (speed + speed limit + weather + battery gating) and two files
concatenated in `src/unnamed/part_000`: the first ("V1") with an instant-speed
display, a `lastSpeedMsRef` used by `toggleUnit`, and a distance-or-time
throttled speed-limit query, the second ("V2", the most developed variant)
with a 5-sample speed buffer and a distance-throttled speed-limit and
road-name query.

The state each location-fix callback touches splits into two disjoint parts:
the speed-estimator state (buffer / last raw speed / displayed speed / unit)
and the query-throttler state (the anchor of the last external lookup).  Both
are embedded here: estimator state machines over `ℚ` (executable), and the
throttler and the haversine distance over `ℝ` (the source uses trigonometric
functions, so these are noncomputable).
-/

namespace Speedo

/-- Display unit, the `unit` React state: `'km/h'` or `'mph'`. -/
inductive SpeedUnit : Type
| kmh
| mph
deriving DecidableEq

/-- `setUnit(unit === 'km/h' ? 'mph' : 'km/h')`, shared by every variant. -/
def flipUnit : SpeedUnit → SpeedUnit
| SpeedUnit.kmh => SpeedUnit.mph
| SpeedUnit.mph => SpeedUnit.kmh

/-- Unit conversion factors `MS_TO_KMH = 3.6` and `MS_TO_MPH = 2.23694`. -/
def unitFactor : SpeedUnit → ℚ
| SpeedUnit.kmh => 3.6
| SpeedUnit.mph => 2.23694

/-- The raw `location.coords.speed` a fix can carry: a number, absent
(`undefined`/`null`), or `NaN`. -/
inductive RawSpeed : Type
| val (q : ℚ)
| missing
| nan
deriving DecidableEq

/-- Clamping used by both part_000 variants: V1's
`location.coords.speed > 0 ? location.coords.speed : 0` and V2's
`rawSpeed && rawSpeed > 0 ? rawSpeed : 0`.  Any comparison with `NaN` or
`undefined` is false in JS, and `NaN`/`undefined`/`0` are falsy, so both
expressions clamp everything that is not a positive number to `0`. -/
def validSpeed : RawSpeed → ℚ
| RawSpeed.val q => if 0 < q then q else 0
| RawSpeed.missing => 0
| RawSpeed.nan => 0

/-- App.js's coercion `location.coords.speed || 0`: only falsy values
(`0`, `NaN`, `undefined`) become `0`; a negative speed passes through. -/
def appCoerce : RawSpeed → ℚ
| RawSpeed.val q => q
| RawSpeed.missing => 0
| RawSpeed.nan => 0

/-- JS `Math.round`: round half toward positive infinity. -/
def jsRound (q : ℚ) : ℤ := ⌊q + 1/2⌋

/-- Arithmetic mean used by V2:
`speedBufferRef.current.reduce((a, b) => a + b, 0) / speedBufferRef.current.length`. -/
def meanOf (l : List ℚ) : ℚ := l.sum / (l.length : ℚ)

/-- `Math.max(0, Math.round(raw * factor))` followed by the unit selection,
as in App.js lines 132-134 and V1 lines 99-101. -/
def displayOf (u : SpeedUnit) (q : ℚ) : ℤ := max 0 (jsRound (q * unitFactor u))

/-! ### V2 estimator (part_000 second file, `BUFFER_SIZE = 5`) -/

/-- Estimator state of the buffered variant: `speedBufferRef.current`,
the `unit` state and the published `speed` state. -/
structure V2State : Type where
  buffer : List ℚ
  unit : SpeedUnit
  speed : ℤ
deriving DecidableEq

/-- Events driving the V2 estimator: a location fix, or the settings
unit toggle (which changes only `unit`; the refs and the `speed` state
survive the subscription restart the `[unit]` effect performs). -/
inductive V2Ev : Type
| fix (raw : RawSpeed)
| toggle
deriving DecidableEq

/-- One V2 location-fix callback, estimator part (part_000 lines 343-358):
push the clamped speed, `shift()` when the buffer exceeds `BUFFER_SIZE = 5`,
then publish `Math.round(avgSpeedMs * factor)`. -/
def stepFix (st : V2State) (raw : RawSpeed) : V2State :=
  let b1 := st.buffer ++ [validSpeed raw]
  let b2 := if 5 < b1.length then b1.drop 1 else b1
  { st with buffer := b2, speed := jsRound (meanOf b2 * unitFactor st.unit) }

/-- V2 event step. -/
def stepV2Ev (st : V2State) : V2Ev → V2State
| V2Ev.fix raw => stepFix st raw
| V2Ev.toggle => { st with unit := flipUnit st.unit }

/-- Initial V2 state: `useState(0)` for speed, `useRef([])` for the buffer,
`useState('km/h')` for the unit. -/
def v2Init : V2State := ⟨[], SpeedUnit.kmh, 0⟩

/-- Run the V2 estimator over an event list. -/
def runV2 (evs : List V2Ev) : V2State := evs.foldl stepV2Ev v2Init

/-- The raw speeds of the fix events, in order. -/
def fixesOf : List V2Ev → List RawSpeed :=
  List.filterMap (fun e => match e with
    | V2Ev.fix r => some r
    | V2Ev.toggle => none)

/-- The last `n` elements of a list. -/
def takeLast (n : ℕ) (l : List ℚ) : List ℚ := l.drop (l.length - n)

/-- Modelled from the spec: `DisplaySpeed equals round(mean(last min(N, count)
samples) × factor)` with `N = 5`, the refinement side compared against the
code's `runV2`. -/
def specDisplaySpeed (u : SpeedUnit) (ss : List RawSpeed) : ℤ :=
  let cs := ss.map validSpeed
  let m := min 5 cs.length
  jsRound ((takeLast m cs).sum / (m : ℚ) * unitFactor u)

/-- The spec's worked example: samples `[10, 12, 0, 8, 10]` m/s. -/
def exampleSamples : List RawSpeed :=
  [RawSpeed.val 10, RawSpeed.val 12, RawSpeed.val 0, RawSpeed.val 8, RawSpeed.val 10]

/-- Six concrete samples, one more than the buffer capacity. -/
def exampleSix : List RawSpeed :=
  [RawSpeed.val 1, RawSpeed.val 2, RawSpeed.val 3, RawSpeed.val 4,
    RawSpeed.val 5, RawSpeed.val 6]

/-! ### V1 estimator (part_000 first file) -/

/-- Estimator state of V1: `lastSpeedMsRef.current`, the published `speed`
and the `unit` state. -/
structure V1State : Type where
  lastSpeedMs : ℚ
  speed : ℤ
  unit : SpeedUnit
deriving DecidableEq

/-- Events driving the V1 estimator. -/
inductive V1Ev : Type
| fix (raw : RawSpeed)
| toggle
deriving DecidableEq

/-- V1 `toggleUnit` (part_000 lines 125-134): flip the unit and instantly
recompute the displayed speed from `lastSpeedMsRef.current` with the new
unit's factor. -/
def toggleUnit (st : V1State) : V1State :=
  let newUnit := flipUnit st.unit
  { st with unit := newUnit, speed := displayOf newUnit st.lastSpeedMs }

/-- V1 event step: a fix stores the clamped raw speed in `lastSpeedMsRef`
and publishes `Math.max(0, Math.round(raw * factor))` (lines 96-101);
a toggle runs `toggleUnit`. -/
def stepV1Ev (st : V1State) : V1Ev → V1State
| V1Ev.fix raw =>
    let r := validSpeed raw
    { st with lastSpeedMs := r, speed := displayOf st.unit r }
| V1Ev.toggle => toggleUnit st

/-- Initial V1 state. -/
def v1Init : V1State := ⟨0, 0, SpeedUnit.kmh⟩

/-- Run the V1 estimator over an event list. -/
def runV1 (evs : List V1Ev) : V1State := evs.foldl stepV1Ev v1Init

/-! ### App.js estimator -/

/-- Estimator state of App.js: the published `speed` and the `unit` state.
App.js stores no last raw speed. -/
structure AppState : Type where
  speed : ℤ
  unit : SpeedUnit
deriving DecidableEq

/-- Events driving the App.js estimator. -/
inductive AppEv : Type
| fix (raw : RawSpeed)
| toggle
deriving DecidableEq

/-- App.js `toggleUnit` (lines 157-159): `setUnit` only; the published
`speed` state is left as it is until the next fix. -/
def toggleUnitApp (st : AppState) : AppState := { st with unit := flipUnit st.unit }

/-- App.js event step: a fix publishes
`Math.max(0, Math.round((location.coords.speed || 0) * factor))`
(lines 131-134). -/
def stepAppEv (st : AppState) : AppEv → AppState
| AppEv.fix raw => { st with speed := displayOf st.unit (appCoerce raw) }
| AppEv.toggle => toggleUnitApp st

/-- Initial App.js state. -/
def appInit : AppState := ⟨0, SpeedUnit.kmh⟩

/-- Run the App.js estimator over an event list. -/
def runApp (evs : List AppEv) : AppState := evs.foldl stepAppEv appInit

/-- A reachable App.js state with one fix received at 10 m/s:
`speed = Math.max(0, Math.round(10 * 3.6)) = 36`, unit `km/h`. -/
def appStOneFix : AppState := runApp [AppEv.fix (RawSpeed.val 10)]

/-! ### Geo-query throttler -/

/-- A latitude/longitude pair in degrees. -/
structure Coord : Type where
  latitude : ℝ
  longitude : ℝ

/-- The origin coordinate, used for concrete throttler scenarios. -/
def origin : Coord := ⟨0, 0⟩

/-- Degrees to radians, `(value * Math.PI) / 180`. -/
noncomputable def toRad (v : ℝ) : ℝ := v * Real.pi / 180

/-- JS `Math.atan2 y x` on the reals. -/
noncomputable def atan2 (y x : ℝ) : ℝ :=
  if 0 < x then Real.arctan (y / x)
  else if x < 0 then
    (if 0 ≤ y then Real.arctan (y / x) + Real.pi else Real.arctan (y / x) - Real.pi)
  else if 0 < y then Real.pi / 2
  else if y < 0 then -(Real.pi / 2)
  else 0

/-- V1 `haversineDistance` (part_000 lines 26-41), including the
`if (!coord1 || !coord2) return 0` null guard, with `R = 6371000`. -/
noncomputable def haversineDistance : Option Coord → Option Coord → ℝ
| none, _ => 0
| some _, none => 0
| some c1, some c2 =>
    6371000 *
      (2 * atan2
        (Real.sqrt
          (Real.sin (toRad (c2.latitude - c1.latitude) / 2) *
              Real.sin (toRad (c2.latitude - c1.latitude) / 2) +
            Real.cos (toRad c1.latitude) * Real.cos (toRad c2.latitude) *
              Real.sin (toRad (c2.longitude - c1.longitude) / 2) *
              Real.sin (toRad (c2.longitude - c1.longitude) / 2)))
        (Real.sqrt
          (1 -
            (Real.sin (toRad (c2.latitude - c1.latitude) / 2) *
                Real.sin (toRad (c2.latitude - c1.latitude) / 2) +
              Real.cos (toRad c1.latitude) * Real.cos (toRad c2.latitude) *
                Real.sin (toRad (c2.longitude - c1.longitude) / 2) *
                Real.sin (toRad (c2.longitude - c1.longitude) / 2)))))

/-- V2 `getDistanceMeters` (part_000 lines 256-270), with `R = 6371000`. -/
noncomputable def getDistanceMeters (lat1 lon1 lat2 lon2 : ℝ) : ℝ :=
  6371000 * 2 *
    atan2
      (Real.sqrt
        (Real.sin (toRad (lat2 - lat1) / 2) ^ 2 +
          Real.cos (toRad lat1) * Real.cos (toRad lat2) *
            Real.sin (toRad (lon2 - lon1) / 2) ^ 2))
      (Real.sqrt
        (1 -
          (Real.sin (toRad (lat2 - lat1) / 2) ^ 2 +
            Real.cos (toRad lat1) * Real.cos (toRad lat2) *
              Real.sin (toRad (lon2 - lon1) / 2) ^ 2)))

/-- V1 firing condition (part_000 lines 105-113): with no anchor both
`distanceMoved` and `timeSinceLastQuery` are `Infinity`, so the lookup
fires; otherwise it fires when `distanceMoved > 50 || timeSinceLastQuery
> 10000` (both comparisons strict).  `lastLocationRef` and
`lastQueryTimeRef` are only ever written together (lines 111-112), so the
anchor is one optional coordinate/timestamp pair. -/
def firedQ1 : Option (Coord × ℤ) → Coord → ℤ → Prop
| none, _, _ => True
| some (c0, t0), c, now =>
    50 < haversineDistance (some c0) (some c) ∨ 10000 < now - t0

/-- V1 anchor update: inside the `if`, `fetchSpeedLimit` is called and the
anchor refs are overwritten with the current fix; otherwise both keep
their values. -/
noncomputable def stepQ1 (a : Option (Coord × ℤ)) (c : Coord) (now : ℤ) :
    Option (Coord × ℤ) :=
  haveI := Classical.propDecidable (firedQ1 a c now)
  if firedQ1 a c now then some (c, now) else a

/-- V2 firing condition (part_000 lines 361-381): unconditionally on the
first fix (`!lastQueryLocationRef.current`); afterwards when
`distanceMoved >= QUERY_DISTANCE_METERS` with `QUERY_DISTANCE_METERS = 30`.
`true` means both `fetchSpeedLimit` and `fetchRoadName` are called. -/
def firedQ2 : Option Coord → Coord → Prop
| none, _ => True
| some a, c => 30 ≤ getDistanceMeters a.latitude a.longitude c.latitude c.longitude

/-- V2 anchor update. -/
noncomputable def stepQ2 (a : Option Coord) (c : Coord) : Option Coord :=
  haveI := Classical.propDecidable (firedQ2 a c)
  if firedQ2 a c then some c else a

/-- App.js firing condition (lines 139-145): unconditionally when
`!lastQueryLocation.current`, otherwise when
`Location.distanceBetween(...) > 30 || Date.now() - timestamp > 60000`
(both strict).  `Location.distanceBetween` is an external library call not
in this repository, so its result `d` is a parameter.  `true` means both
`fetchSpeedLimit` and `fetchWeather` are called. -/
def firedQA : Option (Coord × ℤ) → ℝ → ℤ → Prop
| none, _, _ => True
| some (_, t0), d, now => 30 < d ∨ 60000 < now - t0

/-- App.js anchor update: `lastQueryLocation.current = { ...coords,
timestamp: Date.now() }` inside the `if`. -/
noncomputable def stepQA (a : Option (Coord × ℤ)) (c : Coord) (d : ℝ) (now : ℤ) :
    Option (Coord × ℤ) :=
  haveI := Classical.propDecidable (firedQA a d now)
  if firedQA a d now then some (c, now) else a

/-! ### Lookup response handling -/

/-- A JS number as stored in the `speedLimit` state: an integer or `NaN`. -/
inductive JSNum : Type
| num (n : ℤ)
| nan
deriving DecidableEq

/-- Outcome of one V2 `fetchSpeedLimit` round trip (part_000 lines 272-304):
the fetch or JSON parse threw, the `elements` array was missing or empty, or
a way with a `maxspeed` tag was returned.  `parsed` is the result of
`parseInt(rawLimit)`: `some v` for a leading integer `v`, `none` when the
tag has no leading integer (e.g. the OSM value `'none'`), where `parseInt`
yields `NaN`.  `isMph` records whether the tag string contains `'mph'`. -/
inductive V2Fetch : Type
| err
| empty
| ok (parsed : Option ℤ) (isMph : Bool)
deriving DecidableEq

/-- V2 speed-limit response handling: transport/parse failure and missing
data set the limit to `null`.  A `maxspeed` tag without a leading integer
makes `numericLimit = parseInt(rawLimit) = NaN`, which propagates through
`Math.round(NaN * 1.60934)` and `Math.round(NaN * 0.621371)`, so
`setSpeedLimit(NaN)` is called — `NaN`, not `null`.  A parsed integer gets
the mph→km/h conversion when the tag is in mph, then
`unit === 'km/h' ? n : Math.round(n * 0.621371)`. -/
def processV2Limit (u : SpeedUnit) : V2Fetch → Option JSNum
| V2Fetch.err => none
| V2Fetch.empty => none
| V2Fetch.ok none _ => some JSNum.nan
| V2Fetch.ok (some v) isMph =>
    let n := if isMph then jsRound ((v : ℚ) * 1.60934) else v
    some (JSNum.num (if u = SpeedUnit.kmh then n else jsRound ((n : ℚ) * 0.621371)))

/-- Outcome of one App.js `fetchSpeedLimit` round trip (lines 50-85):
transport/parse error, no `elements`, an element without a `maxspeed` tag,
a `maxspeed` string the regex `(\d+)\s*(mph|km\/h|kph)?` does not match,
or a matched value `v` with `isMph` from the unit group (a missing group
defaults to `'km/h'`). -/
inductive AppFetch : Type
| err
| empty
| noTag
| noDigits
| parsed (v : ℤ) (isMph : Bool)
deriving DecidableEq

/-- App.js speed-limit response handling (lines 63-84): every non-matching
path sets the limit to `null`; a match converts between mph and km/h toward
the active unit. -/
def processAppLimit (u : SpeedUnit) : AppFetch → Option ℤ
| AppFetch.err => none
| AppFetch.empty => none
| AppFetch.noTag => none
| AppFetch.noDigits => none
| AppFetch.parsed v isMph =>
    some (if isMph
      then (if u = SpeedUnit.kmh then jsRound ((v : ℚ) * 1.60934) else v)
      else (if u = SpeedUnit.mph then jsRound ((v : ℚ) / 1.60934) else v))

/-- One V2 throttled query step together with its speed-limit outcome:
when the condition fires, the anchor advances to the current fix and the
limit is set from the (single, never retried) lookup's response `r`;
otherwise both keep their values. -/
noncomputable def stepQ2Full (a : Option Coord) (c : Coord) (lim : Option JSNum)
    (u : SpeedUnit) (r : V2Fetch) : Option Coord × Option JSNum :=
  haveI := Classical.propDecidable (firedQ2 a c)
  if firedQ2 a c then (some c, processV2Limit u r) else (a, lim)

/-- App.js weather state: `currentTemp`, `todayHigh`, `todayLow`,
`weatherCondition`. -/
structure WeatherState : Type where
  currentTemp : Option ℤ
  todayHigh : Option ℤ
  todayLow : Option ℤ
  condition : Option String
deriving DecidableEq

/-- The `conditions` weather-code table of App.js lines 106-109, with
`conditions[code] || 'Weather'`. -/
def conditionLabel (code : ℕ) : String :=
  if code = 0 then "Clear ☀️"
  else if code = 1 then "Mainly clear ☀️"
  else if code = 2 then "Partly cloudy ⛅"
  else if code = 3 then "Overcast ☁️"
  else if code = 45 then "Fog 🌫️"
  else if code = 51 then "Drizzle 🌧️"
  else if code = 61 then "Rain 🌧️"
  else if code = 71 then "Snow ❄️"
  else if code = 95 then "Storm ⛈️"
  else "Weather"

/-- Celsius-to-display conversion of App.js lines 96-102:
`unit === 'km/h' ? tempC : Math.round(tempC * 9/5 + 32)`. -/
def cToDisplay (u : SpeedUnit) (tC : ℤ) : ℤ :=
  if u = SpeedUnit.kmh then tC else jsRound ((tC : ℚ) * 9 / 5 + 32)

/-- Outcome of one App.js `fetchWeather` round trip (lines 88-115): the
fetch or JSON parse threw, the body had no `current` field, or current
temperature, weather code and optional daily high/low were returned. -/
inductive WFetch : Type
| err
| noCurrent
| ok (temp : ℚ) (code : ℕ) (daily : Option (ℚ × ℚ))
deriving DecidableEq

/-- App.js weather response handling: an error sets `weatherCondition` to
the string `'Unavailable'` and leaves every temperature unchanged; a body
without `current` changes nothing; otherwise the temperatures are rounded,
converted and published and the condition label is looked up. -/
def processWeather (u : SpeedUnit) (st : WeatherState) : WFetch → WeatherState
| WFetch.err => { st with condition := some "Unavailable" }
| WFetch.noCurrent => st
| WFetch.ok temp code daily =>
    let cur := some (cToDisplay u (jsRound temp))
    match daily with
    | none => { st with currentTemp := cur, condition := some (conditionLabel code) }
    | some (hi, lo) =>
        { currentTemp := cur,
          todayHigh := some (cToDisplay u (jsRound hi)),
          todayLow := some (cToDisplay u (jsRound lo)),
          condition := some (conditionLabel code) }

/-- A weather state already populated by an earlier successful lookup. -/
def weatherPopulated : WeatherState := ⟨some 20, some 25, some 15, some "Clear ☀️"⟩

/-- One speed-limit response arrival: `setSpeedLimit` is called with the
processed value unconditionally — neither App.js nor either part_000 variant
attaches a sequence number or anchor snapshot to a lookup, so the previous
value is overwritten no matter which query the response belongs to. -/
def applyLimitResponse (lim : Option ℤ) (u : SpeedUnit) (r : AppFetch) : Option ℤ :=
  processAppLimit u r

/-- Fold a list of response arrivals (in arrival order) over the
`speedLimit` state. -/
def runLimitResponses (u : SpeedUnit) (l0 : Option ℤ) (rs : List AppFetch) : Option ℤ :=
  rs.foldl (fun lim r => applyLimitResponse lim u r) l0

/-! ### Helper lemmas -/

lemma validSpeed_nonneg (r : RawSpeed) : 0 ≤ validSpeed r := by
  cases r with
  | val q =>
      by_cases h : 0 < q
      · simp [validSpeed, h, le_of_lt h]
      · simp [validSpeed, h]
  | missing => simp [validSpeed]
  | nan => simp [validSpeed]

lemma unitFactor_nonneg (u : SpeedUnit) : 0 ≤ unitFactor u := by
  cases u <;> norm_num [unitFactor]

lemma jsRound_nonneg (q : ℚ) (h : 0 ≤ q) : 0 ≤ jsRound q := by
  unfold jsRound
  exact Int.floor_nonneg.mpr (by linarith)

lemma length_takeLast (n : ℕ) (l : List ℚ) : (takeLast n l).length = min n l.length := by
  simp [takeLast]
  omega

lemma takeLast_of_length_le (n : ℕ) (l : List ℚ) (h : l.length ≤ n) :
    takeLast n l = l := by
  unfold takeLast
  rw [Nat.sub_eq_zero_of_le h, List.drop_zero]

lemma takeLast_min (l : List ℚ) : takeLast (min 5 l.length) l = takeLast 5 l := by
  unfold takeLast
  congr 1
  omega

lemma step_buffer_eq (l : List ℚ) (v : ℚ) :
    (if 5 < (takeLast 5 l ++ [v]).length then (takeLast 5 l ++ [v]).drop 1
     else takeLast 5 l ++ [v]) = takeLast 5 (l ++ [v]) := by
  by_cases h : l.length < 5
  · rw [takeLast_of_length_le 5 l (le_of_lt h)]
    rw [if_neg (by simp; omega)]
    rw [takeLast_of_length_le 5 (l ++ [v]) (by simp; omega)]
  · push_neg at h
    have hlen : (takeLast 5 l).length = 5 := by rw [length_takeLast]; omega
    rw [if_pos (by simp [hlen])]
    rw [List.drop_append_of_le_length (by omega)]
    unfold takeLast
    rw [List.drop_append_of_le_length (by simp)]
    rw [List.drop_drop]
    have harg : l.length - 5 + 1 = (l ++ [v]).length - 5 := by simp; omega
    rw [harg]

lemma runV2_snoc (evs : List V2Ev) (e : V2Ev) :
    runV2 (evs ++ [e]) = stepV2Ev (runV2 evs) e := by
  simp [runV2, List.foldl_append]

lemma fixesOf_snoc_fix (evs : List V2Ev) (raw : RawSpeed) :
    fixesOf (evs ++ [V2Ev.fix raw]) = fixesOf evs ++ [raw] := by
  simp [fixesOf]

lemma fixesOf_snoc_toggle (evs : List V2Ev) :
    fixesOf (evs ++ [V2Ev.toggle]) = fixesOf evs := by
  simp [fixesOf]

lemma runV2_buffer (evs : List V2Ev) :
    (runV2 evs).buffer = takeLast 5 ((fixesOf evs).map validSpeed) := by
  induction evs using List.reverseRecOn with
  | nil => simp [runV2, v2Init, fixesOf, takeLast]
  | append_singleton evs e ih =>
      rw [runV2_snoc]
      cases e with
      | toggle => simpa [stepV2Ev, fixesOf_snoc_toggle] using ih
      | fix raw =>
          rw [fixesOf_snoc_fix]
          simp only [stepV2Ev, stepFix, ih, List.map_append, List.map]
          exact step_buffer_eq ((fixesOf evs).map validSpeed) (validSpeed raw)

lemma runV2_unit (evs : List V2Ev) (raw : RawSpeed) :
    (runV2 (evs ++ [V2Ev.fix raw])).unit = (runV2 evs).unit := by
  rw [runV2_snoc]
  rfl

lemma displayOf_nonneg (u : SpeedUnit) (q : ℚ) : 0 ≤ displayOf u q :=
  le_max_left 0 _

lemma runV1_snoc (evs : List V1Ev) (e : V1Ev) :
    runV1 (evs ++ [e]) = stepV1Ev (runV1 evs) e := by
  simp [runV1, List.foldl_append]

lemma runApp_snoc (evs : List AppEv) (e : AppEv) :
    runApp (evs ++ [e]) = stepAppEv (runApp evs) e := by
  simp [runApp, List.foldl_append]

lemma fixesOf_map_fix (ss : List RawSpeed) : fixesOf (ss.map V2Ev.fix) = ss := by
  induction ss with
  | nil => rfl
  | cons s ss ih => simpa [fixesOf] using ih

lemma runV2_speed_snoc_fix (evs : List V2Ev) (raw : RawSpeed) :
    (runV2 (evs ++ [V2Ev.fix raw])).speed
      = jsRound (meanOf ((runV2 (evs ++ [V2Ev.fix raw])).buffer)
          * unitFactor (runV2 (evs ++ [V2Ev.fix raw])).unit) := by
  rw [runV2_snoc]
  rfl

lemma runV2_buffer_nonneg (evs : List V2Ev) :
    ∀ x ∈ (runV2 evs).buffer, 0 ≤ x := by
  intro x hx
  rw [runV2_buffer] at hx
  have hx' : x ∈ (fixesOf evs).map validSpeed := List.drop_subset _ _ hx
  obtain ⟨r, _, hr⟩ := List.mem_map.mp hx'
  exact hr ▸ validSpeed_nonneg r

lemma atan2_zero_one : atan2 0 1 = 0 := by
  unfold atan2
  rw [if_pos one_pos]
  simp

lemma atan2_sin_cos (x : ℝ) (hx0 : 0 < x) (hx2 : x < Real.pi / 2) :
    atan2 (Real.sin x) (Real.cos x) = x := by
  have hc : 0 < Real.cos x :=
    Real.cos_pos_of_mem_Ioo ⟨by linarith [Real.pi_pos], hx2⟩
  unfold atan2
  rw [if_pos hc, ← Real.tan_eq_sin_div_cos,
    Real.arctan_tan (by linarith [Real.pi_pos]) hx2]

lemma haversineDistance_self (c : Coord) :
    haversineDistance (some c) (some c) = 0 := by
  simp only [haversineDistance]
  have h0 : toRad (c.latitude - c.latitude) = 0 := by simp [toRad]
  have h1 : toRad (c.longitude - c.longitude) = 0 := by simp [toRad]
  rw [h0, h1]
  simp [atan2_zero_one]

lemma hav_eq_getDistance (c1 c2 : Coord) :
    haversineDistance (some c1) (some c2)
      = getDistanceMeters c1.latitude c1.longitude c2.latitude c2.longitude := by
  simp only [haversineDistance]
  unfold getDistanceMeters
  have h : Real.sin (toRad (c2.latitude - c1.latitude) / 2) *
        Real.sin (toRad (c2.latitude - c1.latitude) / 2) +
      Real.cos (toRad c1.latitude) * Real.cos (toRad c2.latitude) *
        Real.sin (toRad (c2.longitude - c1.longitude) / 2) *
        Real.sin (toRad (c2.longitude - c1.longitude) / 2)
      = Real.sin (toRad (c2.latitude - c1.latitude) / 2) ^ 2 +
        Real.cos (toRad c1.latitude) * Real.cos (toRad c2.latitude) *
          Real.sin (toRad (c2.longitude - c1.longitude) / 2) ^ 2 := by
    ring
  rw [h]
  ring

lemma getDistanceMeters_example :
    getDistanceMeters 0 0 0 (1/1000) = 6371000 * 2 * (Real.pi / 360000) := by
  have hx0 : (0:ℝ) < Real.pi / 360000 := by positivity
  have hxpi : Real.pi / 360000 < Real.pi / 2 := by linarith [Real.pi_pos]
  have hs0 : 0 ≤ Real.sin (Real.pi / 360000) :=
    le_of_lt (Real.sin_pos_of_pos_of_lt_pi hx0 (by linarith [Real.pi_pos]))
  have hc0 : 0 < Real.cos (Real.pi / 360000) :=
    Real.cos_pos_of_mem_Ioo ⟨by linarith [Real.pi_pos], hxpi⟩
  unfold getDistanceMeters
  have e1 : toRad ((0:ℝ) - 0) / 2 = 0 := by simp [toRad]
  have e2 : toRad ((1:ℝ)/1000 - 0) / 2 = Real.pi / 360000 := by
    unfold toRad
    ring
  have e3 : toRad (0:ℝ) = 0 := by simp [toRad]
  rw [e1, e2, e3]
  rw [Real.sin_zero, Real.cos_zero]
  norm_num
  rw [Real.sqrt_sq hs0]
  rw [show (1 : ℝ) - Real.sin (Real.pi/360000) ^ 2 = Real.cos (Real.pi/360000) ^ 2 by
    have := Real.sin_sq_add_cos_sq (Real.pi/360000)
    linarith]
  rw [Real.sqrt_sq (le_of_lt hc0)]
  rw [atan2_sin_cos _ hx0 hxpi]

lemma runV2_example_kmh : (runV2 (exampleSamples.map V2Ev.fix)).speed = 29 := by
  norm_num [runV2, stepV2Ev, stepFix, v2Init, exampleSamples, meanOf, validSpeed,
    unitFactor, jsRound]

lemma runV2_example_mph : (runV2 (V2Ev.toggle :: exampleSamples.map V2Ev.fix)).speed = 18 := by
  norm_num [runV2, stepV2Ev, stepFix, v2Init, exampleSamples, meanOf, validSpeed,
    unitFactor, flipUnit, jsRound]

/-! ### Claims -/

/-- C1.  After each fix the published display speed of the buffered variant
equals `round(mean(last min(5, count) clamped samples) × unit factor)` with
factor `3.6` for km/h and `2.23694` for mph, and on the spec's example
samples `[10, 12, 0, 8, 10]` m/s the km/h display is `29` and the mph
display is `18`. -/
theorem c1_display_round_mean (evs : List V2Ev) (raw : RawSpeed) :
    (runV2 (evs ++ [V2Ev.fix raw])).speed
        = specDisplaySpeed (runV2 (evs ++ [V2Ev.fix raw])).unit
            (fixesOf (evs ++ [V2Ev.fix raw]))
    ∧ (runV2 (exampleSamples.map V2Ev.fix)).speed = 29
    ∧ (runV2 (V2Ev.toggle :: exampleSamples.map V2Ev.fix)).speed = 18 := by
  refine ⟨?_, runV2_example_kmh, runV2_example_mph⟩
  have hbuf := runV2_buffer (evs ++ [V2Ev.fix raw])
  have hspeed : (runV2 (evs ++ [V2Ev.fix raw])).speed
      = jsRound (meanOf ((runV2 (evs ++ [V2Ev.fix raw])).buffer)
          * unitFactor (runV2 (evs ++ [V2Ev.fix raw])).unit) := by
    rw [runV2_snoc]
    rfl
  rw [hspeed, hbuf]
  simp only [specDisplaySpeed]
  rw [takeLast_min]
  unfold meanOf
  rw [length_takeLast]

/-- C3.  The speed buffer always has length at most `N = 5` with every
stored value nonnegative; after `N + 1` pushes the oldest sample has been
evicted (FIFO); and one fix-processing step preserves both parts of the
invariant. -/
theorem c3_buffer_invariant (evs : List V2Ev) (ss : List RawSpeed)
    (h6 : ss.length = 6) :
    (runV2 evs).buffer.length ≤ 5
    ∧ (∀ x ∈ (runV2 evs).buffer, 0 ≤ x)
    ∧ (runV2 (ss.map V2Ev.fix)).buffer = (ss.map validSpeed).drop 1
    ∧ (∀ (st : V2State) (raw : RawSpeed), st.buffer.length ≤ 5 →
        (stepFix st raw).buffer.length ≤ 5)
    ∧ (∀ (st : V2State) (raw : RawSpeed), (∀ x ∈ st.buffer, 0 ≤ x) →
        ∀ x ∈ (stepFix st raw).buffer, 0 ≤ x) := by
  refine ⟨?_, runV2_buffer_nonneg evs, ?_, ?_, ?_⟩
  · rw [runV2_buffer, length_takeLast]
    omega
  · rw [runV2_buffer, fixesOf_map_fix]
    unfold takeLast
    congr 1
    simp [h6]
  · intro st raw hlen
    have hb1 : (st.buffer ++ [validSpeed raw]).length = st.buffer.length + 1 := by simp
    simp only [stepFix]
    split_ifs with h
    · rw [List.length_drop, hb1]
      omega
    · rw [hb1]
      omega
  · intro st raw hnn x hx
    simp only [stepFix] at hx
    have hx' : x ∈ st.buffer ++ [validSpeed raw] := by
      split_ifs at hx with h
      · exact List.drop_subset _ _ hx
      · exact hx
    rcases List.mem_append.mp hx' with h1 | h2
    · exact hnn x h1
    · rw [List.mem_singleton.mp h2]
      exact validSpeed_nonneg raw

/-- Witness for C3 at a concrete six-sample run: the first sample has been
evicted and the buffer is within capacity. -/
theorem c3_buffer_invariant_witness :
    (runV2 (exampleSix.map V2Ev.fix)).buffer = (exampleSix.map validSpeed).drop 1
    ∧ (runV2 (exampleSix.map V2Ev.fix)).buffer.length ≤ 5 := by
  have h := c3_buffer_invariant (exampleSix.map V2Ev.fix) exampleSix rfl
  exact ⟨h.2.2.1, h.1⟩

/-- C8.  On the very first fix (empty buffer) the sample is pushed before
averaging: the buffer becomes the single clamped sample, the computed mean
is that sample (divisor `1`, not a division by zero), the published speed is
`round(sample × factor)`, and after any fix-processing step the divisor
(the buffer length) is at least `1`. -/
theorem c8_first_fix (u : SpeedUnit) (s0 : ℤ) (raw : RawSpeed) :
    (stepFix ⟨[], u, s0⟩ raw).buffer = [validSpeed raw]
    ∧ meanOf ((stepFix ⟨[], u, s0⟩ raw).buffer) = validSpeed raw
    ∧ (stepFix ⟨[], u, s0⟩ raw).speed = jsRound (validSpeed raw * unitFactor u)
    ∧ (∀ (st : V2State) (r : RawSpeed), 1 ≤ (stepFix st r).buffer.length) := by
  have hb : (stepFix ⟨[], u, s0⟩ raw).buffer = [validSpeed raw] := by
    simp [stepFix]
  refine ⟨hb, ?_, ?_, ?_⟩
  · rw [hb]
    simp [meanOf]
  · have hs : (stepFix ⟨[], u, s0⟩ raw).speed
        = jsRound (meanOf ((stepFix ⟨[], u, s0⟩ raw).buffer) * unitFactor u) := rfl
    rw [hs, hb]
    simp [meanOf]
  · intro st r
    have hb1 : (st.buffer ++ [validSpeed r]).length = st.buffer.length + 1 := by simp
    simp only [stepFix]
    split_ifs with h
    · rw [List.length_drop, hb1]
      rw [hb1] at h
      omega
    · rw [hb1]
      omega

/-- C10.  In every state reachable by fix processing and unit toggling —
whatever raw speed values the provider reported (negative, zero, missing,
`NaN`) — the published display speed of each of the three variants is a
nonnegative integer. -/
theorem c10_display_nonneg (evs2 : List V2Ev) (evs1 : List V1Ev)
    (evsA : List AppEv) :
    0 ≤ (runV2 evs2).speed ∧ 0 ≤ (runV1 evs1).speed ∧ 0 ≤ (runApp evsA).speed := by
  refine ⟨?_, ?_, ?_⟩
  · induction evs2 using List.reverseRecOn with
    | nil => simp [runV2, v2Init]
    | append_singleton evs e ih =>
        cases e with
        | toggle =>
            rw [runV2_snoc]
            exact ih
        | fix raw =>
            rw [runV2_speed_snoc_fix]
            refine jsRound_nonneg _ (mul_nonneg ?_ (unitFactor_nonneg _))
            unfold meanOf
            exact div_nonneg (List.sum_nonneg (runV2_buffer_nonneg _))
              (by positivity)
  · induction evs1 using List.reverseRecOn with
    | nil => simp [runV1, v1Init]
    | append_singleton evs e ih =>
        rw [runV1_snoc]
        cases e with
        | fix raw => exact displayOf_nonneg _ _
        | toggle => exact displayOf_nonneg _ _
  · induction evsA using List.reverseRecOn with
    | nil => simp [runApp, appInit]
    | append_singleton evs e ih =>
        rw [runApp_snoc]
        cases e with
        | fix raw => exact displayOf_nonneg _ _
        | toggle => exact ih

/-- C2 counterexample.  With the anchor at the origin at time `0` and a new
fix at the same point at time `10000`, the claim's condition holds (elapsed
time `≥` the 10,000 ms threshold) yet the code — which compares with strict
`>` — does not fire the lookup and leaves the anchor unchanged. -/
theorem c2_counterexample :
    (haversineDistance (some origin) (some origin) ≥ 50
        ∨ (10000 : ℤ) - 0 ≥ 10000)
    ∧ ¬ firedQ1 (some (origin, 0)) origin 10000
    ∧ stepQ1 (some (origin, 0)) origin 10000 = some (origin, 0) := by
  have hd : haversineDistance (some origin) (some origin) = 0 :=
    haversineDistance_self origin
  have hnf : ¬ firedQ1 (some (origin, 0)) origin 10000 := by
    simp only [firedQ1, hd]
    norm_num
  refine ⟨Or.inr (by norm_num), hnf, ?_⟩
  unfold stepQ1
  rw [if_neg hnf]

/-- C2 amended.  After an anchor exists, the V1 throttler fires the lookup
and advances the anchor to the new fix exactly when the haversine distance
from the anchor is strictly greater than 50 m or the elapsed time is
strictly greater than 10,000 ms; App.js behaves the same with its 30 m /
60,000 ms thresholds (its distance comes from the external
`Location.distanceBetween`, here the parameter `d`).  When neither strict
condition holds, no lookup fires and the anchor is unchanged. -/
theorem c2_throttle_strict (c0 : Coord) (t0 : ℤ) (c : Coord) (now : ℤ)
    (d : ℝ) (tA nowA : ℤ) :
    (firedQ1 (some (c0, t0)) c now ↔
      (50 < haversineDistance (some c0) (some c) ∨ 10000 < now - t0))
    ∧ (firedQ1 (some (c0, t0)) c now →
        stepQ1 (some (c0, t0)) c now = some (c, now))
    ∧ (¬ firedQ1 (some (c0, t0)) c now →
        stepQ1 (some (c0, t0)) c now = some (c0, t0))
    ∧ (firedQA (some (c0, tA)) d nowA ↔ (30 < d ∨ 60000 < nowA - tA))
    ∧ (firedQA (some (c0, tA)) d nowA →
        stepQA (some (c0, tA)) c d nowA = some (c, nowA))
    ∧ (¬ firedQA (some (c0, tA)) d nowA →
        stepQA (some (c0, tA)) c d nowA = some (c0, tA)) := by
  refine ⟨Iff.rfl, ?_, ?_, Iff.rfl, ?_, ?_⟩
  · intro h
    unfold stepQ1
    rw [if_pos h]
  · intro h
    unfold stepQ1
    rw [if_neg h]
  · intro h
    unfold stepQA
    rw [if_pos h]
  · intro h
    unfold stepQA
    rw [if_neg h]

/-- Witness for C2 (amended): a fix 20,000 ms after the anchor fires and
moves the anchor to the new fix. -/
theorem c2_throttle_strict_witness :
    firedQ1 (some (origin, 0)) origin 20000
    ∧ stepQ1 (some (origin, 0)) origin 20000 = some (origin, 20000) := by
  have h := c2_throttle_strict origin 0 origin 20000 0 0 0
  have hf : firedQ1 (some (origin, 0)) origin 20000 :=
    h.1.mpr (Or.inr (by norm_num))
  exact ⟨hf, h.2.1 hf⟩

/-- C4 counterexample.  In App.js, after a fix at 10 m/s in km/h mode the
display shows `36`; toggling the unit flips it to mph but leaves the
display at `36`, whereas recomputing from the last raw sample with the new
factor would give `22`. -/
theorem c4_counterexample :
    (toggleUnitApp appStOneFix).speed = 36
    ∧ (toggleUnitApp appStOneFix).unit = SpeedUnit.mph
    ∧ displayOf SpeedUnit.mph (appCoerce (RawSpeed.val 10)) = 22
    ∧ (36 : ℤ) ≠ 22 := by
  refine ⟨?_, ?_, ?_, by norm_num⟩
  · norm_num [toggleUnitApp, appStOneFix, runApp, stepAppEv, appInit, displayOf,
      appCoerce, unitFactor, jsRound]
  · norm_num [toggleUnitApp, appStOneFix, runApp, stepAppEv, appInit, flipUnit]
  · norm_num [displayOf, appCoerce, unitFactor, jsRound]

/-- C4 amended.  In the part_000 variant that stores the last raw speed,
toggling the unit immediately recomputes the display from the last clamped
raw sample with the new unit's factor; in App.js, toggling changes only the
unit and the published display speed keeps its previous value until the
next fix. -/
theorem c4_toggle_recompute (evs : List V1Ev) (raw : RawSpeed) (stA : AppState) :
    (stepV1Ev (runV1 (evs ++ [V1Ev.fix raw])) V1Ev.toggle).speed
      = displayOf (flipUnit (runV1 (evs ++ [V1Ev.fix raw])).unit) (validSpeed raw)
    ∧ (stepV1Ev (runV1 (evs ++ [V1Ev.fix raw])) V1Ev.toggle).unit
      = flipUnit (runV1 (evs ++ [V1Ev.fix raw])).unit
    ∧ (toggleUnitApp stA).speed = stA.speed
    ∧ (toggleUnitApp stA).unit = flipUnit stA.unit := by
  have hl : (runV1 (evs ++ [V1Ev.fix raw])).lastSpeedMs = validSpeed raw := by
    rw [runV1_snoc]
    rfl
  refine ⟨?_, rfl, rfl, rfl⟩
  show displayOf (flipUnit (runV1 (evs ++ [V1Ev.fix raw])).unit)
      (runV1 (evs ++ [V1Ev.fix raw])).lastSpeedMs = _
  rw [hl]

/-- C5 counterexample.  Two failure responses that are not set to null:
a V2 speed-limit response whose `maxspeed` tag has no leading integer
(e.g. `'none'`) ends in `setSpeedLimit(NaN)` — `NaN`, not null (part_000
lines 285-297); and a weather lookup whose transport fails keeps the
previously shown temperature and sets the condition label to the non-null
string `'Unavailable'` (App.js lines 112-114). -/
theorem c5_counterexample :
    processV2Limit SpeedUnit.kmh (V2Fetch.ok none false) = some JSNum.nan
    ∧ some JSNum.nan ≠ (none : Option JSNum)
    ∧ (processWeather SpeedUnit.kmh weatherPopulated WFetch.err).currentTemp = some 20
    ∧ (processWeather SpeedUnit.kmh weatherPopulated WFetch.err).condition
        = some "Unavailable"
    ∧ (processWeather SpeedUnit.kmh weatherPopulated WFetch.err).condition ≠ none
    ∧ (processWeather SpeedUnit.kmh weatherPopulated WFetch.err).currentTemp ≠ none := by
  refine ⟨rfl, by simp, rfl, rfl, ?_, ?_⟩
  · simp [processWeather, weatherPopulated]
  · simp [processWeather, weatherPopulated]

/-- C5 amended.  A speed-limit lookup whose response is a transport
failure, malformed JSON, or contains no matching data sets the speed limit
to null in both implementations, and App.js also yields null when the
`maxspeed` tag has no digits (its regex guard); but V2 sets the speed
limit to `NaN`, not null, when the tag has no leading integer.  In all
cases the single lookup per trigger is never retried and the anchor update
is independent of the response (the anchor still advances to the
triggering fix).  A failed weather lookup keeps the previous temperatures
and sets the condition label to `'Unavailable'`; a response without
current data changes nothing. -/
theorem c5_lookup_failure (u : SpeedUnit) (a : Option Coord) (c : Coord)
    (lim : Option JSNum) (r r' : V2Fetch) (b : Bool) (w : WeatherState) :
    processV2Limit u V2Fetch.err = none
    ∧ processV2Limit u V2Fetch.empty = none
    ∧ processV2Limit u (V2Fetch.ok none b) = some JSNum.nan
    ∧ processAppLimit u AppFetch.err = none
    ∧ processAppLimit u AppFetch.empty = none
    ∧ processAppLimit u AppFetch.noTag = none
    ∧ processAppLimit u AppFetch.noDigits = none
    ∧ stepQ2Full none c lim u V2Fetch.err = (some c, none)
    ∧ (stepQ2Full a c lim u r).1 = (stepQ2Full a c lim u r').1
    ∧ processWeather u w WFetch.err = { w with condition := some "Unavailable" }
    ∧ processWeather u w WFetch.noCurrent = w := by
  refine ⟨rfl, rfl, rfl, rfl, rfl, rfl, rfl, ?_, ?_, rfl, rfl⟩
  · unfold stepQ2Full
    rw [if_pos (show firedQ2 none c from True.intro)]
    rfl
  · unfold stepQ2Full
    by_cases h : firedQ2 a c
    · rw [if_pos h, if_pos h]
    · rw [if_neg h, if_neg h]

/-- C6.  On the very first fix (no anchor recorded) both the V2 throttler
(part_000 lines 361-364, firing `fetchSpeedLimit` and `fetchRoadName`) and
the App.js throttler (lines 139-145, firing `fetchSpeedLimit` and
`fetchWeather`) fire unconditionally — whatever the distance `d` or time —
and record the fix as the new anchor. -/
theorem c6_first_fix_fires (c : Coord) (now : ℤ) (d : ℝ) :
    firedQ2 none c
    ∧ stepQ2 none c = some c
    ∧ firedQA none d now
    ∧ stepQA none c d now = some (c, now) := by
  refine ⟨True.intro, ?_, True.intro, ?_⟩
  · unfold stepQ2
    rw [if_pos (show firedQ2 none c from True.intro)]
  · unfold stepQA
    rw [if_pos (show firedQA none d now from True.intro)]

/-- C7.  The code evaluating the failing input: no implementation attaches
a sequence number or anchor snapshot to a lookup, so responses apply in
arrival order — when the newer query's response (limit 50) arrives before
the older query's response (limit 30), the stale value 30 overwrites the
newer 50. -/
theorem c7_stale_overwrite :
    runLimitResponses SpeedUnit.kmh none
        [AppFetch.parsed 50 false, AppFetch.parsed 30 false] = some 30
    ∧ runLimitResponses SpeedUnit.kmh none [AppFetch.parsed 50 false] = some 50
    ∧ some (30 : ℤ) ≠ some 50 := by
  refine ⟨rfl, rfl, by norm_num⟩

/-- C9.  The V1 and V2 throttler distance functions compute the same
haversine great-circle distance with mean Earth radius 6,371,000 m, and
the distance between (0°, 0°) and (0°, 0.001°) is within 0.05 m of
111.2 m. -/
theorem c9_haversine_formula (c1 c2 : Coord) :
    haversineDistance (some c1) (some c2)
      = getDistanceMeters c1.latitude c1.longitude c2.latitude c2.longitude
    ∧ |getDistanceMeters 0 0 0 (1/1000) - 111.2| < 1/20 := by
  refine ⟨hav_eq_getDistance c1 c2, ?_⟩
  rw [getDistanceMeters_example, abs_lt]
  constructor <;> nlinarith [Real.pi_gt_d6, Real.pi_lt_d6]

end Speedo
